import Mathlib

/-!
Shallow embedding of the MediCore EMR application
(`emr_project/emr_app/models.py`, `views.py`, `forms.py`).

Python `None`/missing values are modelled with `Option`; Django `Decimal`
and `float` values are modelled with `ℚ`; `datetime.date` is modelled by a
year/month/day record compared lexicographically, exactly as Python
compares `date` objects.  A Python truthiness test (`if x:`) on an optional
numeric field is false both for `None` and for `0`, which the embedding
reproduces with explicit `truthy` functions.
-/

namespace EMR

/-- A calendar date, as `datetime.date`: year, month, day.
Python compares dates lexicographically by (year, month, day). -/
structure Date where
  year : Int
  month : Nat
  day : Nat
deriving DecidableEq, Repr

/-- `a <= b` on dates, lexicographic, as Python date comparison. -/
def dateLeb (a b : Date) : Bool :=
  decide (a.year < b.year) ||
    (decide (a.year = b.year) &&
      (decide (a.month < b.month) ||
        (decide (a.month = b.month) && decide (a.day ≤ b.day))))

/-- Python tuple comparison `(am, ad) < (bm, bd)` on (month, day) pairs,
as used inside `Patient.age`. -/
def mdLt (am ad bm bd : Nat) : Bool :=
  decide (am < bm) || (decide (am = bm) && decide (ad < bd))

/-- Leap year, Python `calendar`/`datetime` rule. -/
def isLeap (y : Int) : Bool :=
  (decide (y % 4 = 0) && decide (y % 100 ≠ 0)) || decide (y % 400 = 0)

/-- Days in a month, as `datetime`. -/
def daysInMonth (y : Int) (m : Nat) : Nat :=
  if m = 2 then (if isLeap y then 29 else 28)
  else if m = 4 ∨ m = 6 ∨ m = 9 ∨ m = 11 then 30
  else 31

/-- Validity of a `datetime.date` value (Python raises `ValueError`
outside these bounds; `datetime.MINYEAR = 1`). -/
def Date.valid (d : Date) : Bool :=
  decide (1 ≤ d.year) && decide (1 ≤ d.month) && decide (d.month ≤ 12) &&
    decide (1 ≤ d.day) && decide (d.day ≤ daysInMonth d.year d.month)

/-- `d.replace(year=y)`: keeps month and day, raises (`none`) when the
resulting date is invalid (e.g. Feb 29 in a non-leap year). -/
def Date.replaceYear (d : Date) (y : Int) : Option Date :=
  let r : Date := ⟨y, d.month, d.day⟩
  if r.valid then some r else none

/-- `Patient.age` (models.py lines 139-142):
`today.year - dob.year - ((today.month, today.day) < (dob.month, dob.day))`. -/
def patientAge (today dob : Date) : Int :=
  today.year - dob.year - (if mdLt today.month today.day dob.month dob.day then 1 else 0)

/-- Truthiness of an optional rational: Python `if x:` is false for
`None` and for zero. -/
def truthyQ : Option ℚ → Bool
  | none => false
  | some x => decide (x ≠ 0)

/-- Truthiness of an optional natural number field. -/
def truthyNat : Option Nat → Bool
  | none => false
  | some x => decide (x ≠ 0)

/-- Truthiness of an optional string: empty string and `None` are falsy. -/
def truthyS : Option String → Bool
  | none => false
  | some s => !s.isEmpty

/-- Floor of a rational as an integer. -/
def ratFloor (q : ℚ) : Int := ⌊q⌋

/-- Python `round` to an integer: round-half-to-even (banker's rounding). -/
def roundHalfEven (q : ℚ) : Int :=
  if q - (ratFloor q : ℚ) < 1/2 then ratFloor q
  else if (1 : ℚ)/2 < q - (ratFloor q : ℚ) then ratFloor q + 1
  else if ratFloor q % 2 = 0 then ratFloor q
  else ratFloor q + 1

/-- Python `round(x, 2)`: round to two decimal places. -/
def pyRound2 (q : ℚ) : ℚ := (roundHalfEven (q * 100) : ℚ) / 100

/-- Shared body of `Patient.bmi` (models.py 144-149) and `Checkup.bmi`
(models.py 359-364): `if self.height and self.weight:` then
`height_m = height / 100` and `round(weight / height_m ** 2, 2)`,
else `None`. -/
def bmiOf (height weight : Option ℚ) : Option ℚ :=
  if truthyQ height && truthyQ weight then
    some (pyRound2 (weight.getD 0 / (height.getD 0 / 100) ^ 2))
  else none

/-- A doctor profile row linked to a user account (`Doctor` model):
only the fields the access-control checks consult. -/
structure DoctorProfile where
  id : Nat
  is_active : Bool
deriving DecidableEq, Repr

/-- An authenticated account (`django.contrib.auth.models.User`):
primary key, staff flag, and the optional linked doctor profile. -/
structure AuthUser where
  id : Nat
  is_staff : Bool
  doctor_profile : Option DoctorProfile
deriving DecidableEq, Repr

/-- `is_doctor` (views.py 44-46): the user has a doctor profile and it is
active. -/
def is_doctor (u : AuthUser) : Bool :=
  match u.doctor_profile with
  | some d => d.is_active
  | none => false

/-- `is_staff_or_doctor` (views.py 48-50). -/
def is_staff_or_doctor (u : AuthUser) : Bool :=
  u.is_staff || is_doctor u

/-- A `Patient` row, restricted to the fields the verified operations
read: identifiers and contact strings, date of birth, enumerated fields,
optional height/weight, owning user id, active flag. -/
structure Patient where
  patient_id : String
  first_name : String
  last_name : String
  email : String
  contact_number : String
  date_of_birth : Date
  gender : String
  blood_type : String
  height : Option ℚ
  weight : Option ℚ
  user : Nat
  is_active : Bool
deriving DecidableEq, Repr

/-- `Patient.age` as a property of the row (models.py 139-142), with the
ambient `date.today()` made an explicit argument. -/
def Patient.age (p : Patient) (today : Date) : Int :=
  patientAge today p.date_of_birth

/-- `Patient.bmi` (models.py 144-149). -/
def Patient.bmi (p : Patient) : Option ℚ :=
  bmiOf p.height p.weight

/-- A `Checkup` row, restricted to the vitals the verified properties
read. -/
structure Checkup where
  blood_pressure_systolic : Option Nat
  blood_pressure_diastolic : Option Nat
  height : Option ℚ
  weight : Option ℚ
deriving DecidableEq, Repr

/-- `Checkup.blood_pressure` (models.py 353-357):
`f"{systolic}/{diastolic}"` when both truthy, else `None`. -/
def Checkup.blood_pressure (c : Checkup) : Option String :=
  if truthyNat c.blood_pressure_systolic && truthyNat c.blood_pressure_diastolic then
    some (toString (c.blood_pressure_systolic.getD 0) ++ "/" ++
          toString (c.blood_pressure_diastolic.getD 0))
  else none

/-- `Checkup.bmi` (models.py 359-364), same body as `Patient.bmi`. -/
def Checkup.bmi (c : Checkup) : Option ℚ :=
  bmiOf c.height c.weight

/-- A `Billing` row restricted to the monetary fields `Billing.save`
reads; `total_amount` is `none` before any value is assigned. -/
structure Billing where
  amount : ℚ
  tax_amount : ℚ
  discount_amount : ℚ
  total_amount : Option ℚ
deriving DecidableEq, Repr

/-- `Billing.save` (models.py 572-575): `if not self.total_amount:` —
false for `None` and for zero — assign `amount + tax_amount -
discount_amount`; then persist. -/
def Billing.save (b : Billing) : Billing :=
  if !truthyQ b.total_amount then
    { b with total_amount := some (b.amount + b.tax_amount - b.discount_amount) }
  else b

/-- A `Notification` row restricted to the read-state fields; `read_at`
is a timestamp (`none` until set). -/
structure Notification where
  is_read : Bool
  read_at : Option Int
deriving DecidableEq, Repr

/-- `Notification.mark_as_read` (models.py 612-616).  Returns the
resulting row and whether `save()` was called. -/
def Notification.mark_as_read (n : Notification) (now : Int) :
    Notification × Bool :=
  if !n.is_read then ({ is_read := true, read_at := some now }, true)
  else (n, false)

/-- Lower-casing of a string to a character list, for Django
case-insensitive `icontains` lookups. -/
def strLower (s : String) : List Char :=
  s.toList.map Char.toLower

/-- `startsWithL ns hs`: the list `ns` is an initial segment of `hs`. -/
def startsWithL : List Char → List Char → Bool
  | [], _ => true
  | _ :: _, [] => false
  | a :: as, b :: bs => a == b && startsWithL as bs

/-- `hasSub ns hs`: the list `ns` occurs contiguously inside `hs`. -/
def hasSub : List Char → List Char → Bool
  | ns, [] => ns.isEmpty
  | ns, h :: hs => startsWithL ns (h :: hs) || hasSub ns hs

/-- Django `field__icontains=q`: case-insensitive substring match. -/
def icontains (hay q : String) : Bool :=
  hasSub (strLower q) (strLower hay)

/-- The search `Q` disjunction of `patient_list` (views.py 194-201):
first name, last name, patient id, contact number, or email contains the
query, case-insensitively. -/
def matchesSearch (q : String) (p : Patient) : Bool :=
  icontains p.first_name q || icontains p.last_name q ||
    icontains p.patient_id q || icontains p.contact_number q ||
    icontains p.email q

/-- Cleaned data of `PatientSearchForm` (forms.py 555-597); optional
fields are `None` when left blank. -/
structure PatientSearchParams where
  search_query : Option String
  blood_type : Option String
  gender : Option String
  age_min : Option Nat
  age_max : Option Nat
deriving DecidableEq, Repr

/-- The `age_min` branch of the age filter (views.py 212-214):
`max_birth_date = today.replace(year=today.year - age_min)` — which can
raise, modelled by `none` — then keep patients with
`date_of_birth <= max_birth_date`.  Skipped when `age_min` is falsy. -/
def applyAgeMin (today : Date) (age_min : Option Nat) (ps : List Patient) :
    Option (List Patient) :=
  if truthyNat age_min then
    match today.replaceYear (today.year - (age_min.getD 0 : Int)) with
    | none => none
    | some maxBirth => some (ps.filter fun p => dateLeb p.date_of_birth maxBirth)
  else some ps

/-- The `age_max` branch of the age filter (views.py 215-217):
`min_birth_date = today.replace(year=today.year - age_max - 1)`, then keep
patients with `date_of_birth >= min_birth_date`.  Skipped when `age_max`
is falsy. -/
def applyAgeMax (today : Date) (age_max : Option Nat) (ps : List Patient) :
    Option (List Patient) :=
  if truthyNat age_max then
    match today.replaceYear (today.year - (age_max.getD 0 : Int) - 1) with
    | none => none
    | some minBirth => some (ps.filter fun p => dateLeb minBirth p.date_of_birth)
  else some ps

/-- The whole age-filtering block of `patient_list` (views.py 209-217):
entered only when `age_min or age_max` is truthy; applies the two
branches in order.  `none` models the unhandled `ValueError` from
`date.replace`. -/
def ageFilterStep (today : Date) (age_min age_max : Option Nat)
    (ps : List Patient) : Option (List Patient) :=
  if truthyNat age_min || truthyNat age_max then
    (applyAgeMin today age_min ps).bind (applyAgeMax today age_max)
  else some ps

/-- The search/filter block of `patient_list` (views.py 187-217), run
when `search_form.is_valid()` holds: text search, blood type, gender,
then the age range. -/
def applySearchFilters (f : PatientSearchParams) (today : Date)
    (ps : List Patient) : Option (List Patient) :=
  let ps := if truthyS f.search_query then
      ps.filter (matchesSearch (f.search_query.getD "")) else ps
  let ps := if truthyS f.blood_type then
      ps.filter (fun p => p.blood_type == f.blood_type.getD "") else ps
  let ps := if truthyS f.gender then
      ps.filter (fun p => p.gender == f.gender.getD "") else ps
  ageFilterStep today f.age_min f.age_max ps

/-- Ordering key of `patients.order_by('last_name', 'first_name')`. -/
def nameLeb (a b : Patient) : Bool :=
  decide (a.last_name < b.last_name) ||
    (a.last_name == b.last_name && decide (a.first_name ≤ b.first_name))

/-- Insertion into a list sorted by `nameLeb`. -/
def insertByName (x : Patient) : List Patient → List Patient
  | [] => [x]
  | y :: ys => if nameLeb x y then x :: y :: ys else y :: insertByName x ys

/-- Insertion sort by last name then first name (`order_by`). -/
def sortByName : List Patient → List Patient
  | [] => []
  | x :: xs => insertByName x (sortByName xs)

/-- One page of `Paginator(qs, pageSize)` (views.py 219-222): page
numbers start at 1. -/
def paginatePage (ps : List Patient) (pageSize pageNum : Nat) : List Patient :=
  (ps.drop ((pageNum - 1) * pageSize)).take pageSize

/-- `patient_list` (views.py 176-230) up to pagination: active patients,
ownership scoping for non-staff non-doctor users, then — when the search
form validated — the search filters.  `none` models an uncaught
exception. -/
def patient_list (db : List Patient) (user : AuthUser) (form_valid : Bool)
    (f : PatientSearchParams) (today : Date) : Option (List Patient) :=
  let ps := db.filter (fun p => p.is_active)
  let ps := if !(user.is_staff || is_doctor user) then
      ps.filter (fun p => p.user == user.id) else ps
  if form_valid then applySearchFilters f today ps else some ps

/-- The page of results `patient_list` actually renders: the filtered
list ordered by name, then the requested page of ten. -/
def patient_list_page (db : List Patient) (user : AuthUser)
    (form_valid : Bool) (f : PatientSearchParams) (today : Date)
    (pageNum : Nat) : Option (List Patient) :=
  (patient_list db user form_valid f today).map
    (fun ps => paginatePage (sortByName ps) 10 pageNum)

/-- `patient_search_api` (views.py 649-678): queries shorter than two
characters return nothing; otherwise active patients, ownership scoping
for non-privileged users, the three-field `icontains` search, first ten
rows. -/
def patient_search_api (db : List Patient) (user : AuthUser) (q : String) :
    List Patient :=
  if q.length < 2 then []
  else
    let ps := db.filter (fun p => p.is_active)
    let ps := if !(user.is_staff || is_doctor user) then
        ps.filter (fun p => p.user == user.id) else ps
    (ps.filter fun p =>
      icontains p.first_name q || icontains p.last_name q ||
        icontains p.patient_id q).take 10

/-- `Appointment.STATUS_CHOICES` (models.py 238-245). -/
def STATUS_CHOICES : List (String × String) :=
  [("Scheduled", "Scheduled"), ("Confirmed", "Confirmed"),
   ("In Progress", "In Progress"), ("Completed", "Completed"),
   ("Cancelled", "Cancelled"), ("No Show", "No Show")]

/-- The keys of `dict(Appointment.STATUS_CHOICES)`, against which the
requested status is checked. -/
def statusKeys : List String := STATUS_CHOICES.map (fun c => c.1)

/-- An `Appointment` row restricted to the fields
`appointment_update_status` reads: doctor profile id and status. -/
structure Appointment where
  doctor : Nat
  status : String
deriving DecidableEq, Repr

/-- `appointment_update_status` (views.py 435-452): permission check
(`is_staff or is_doctor or (is_doctor and appointment.doctor ==
user.doctor_profile)`), then accept the posted status only when it is a
key of `STATUS_CHOICES`.  Returns the resulting row and whether the
response reported success.  `new_status` is `request.POST.get('status')`,
`none` when absent. -/
def appointment_update_status (user : AuthUser) (appt : Appointment)
    (new_status : Option String) : Appointment × Bool :=
  if !(user.is_staff || is_doctor user ||
        (is_doctor user &&
          (match user.doctor_profile with
           | some d => appt.doctor == d.id
           | none => false))) then
    (appt, false)
  else
    match new_status with
    | some s =>
        if statusKeys.contains s then ({ appt with status := s }, true)
        else (appt, false)
    | none => (appt, false)

/-- `BillingForm.clean` (forms.py 733-741): reads `amount` and
`discount_amount` (defaulting to 0 when the key is absent) from the
cleaned data and raises when `amount and discount_amount and
discount_amount > amount`.  Returns `true` when validation passes. -/
def billingClean (amount discount_amount : Option ℚ) : Bool :=
  !(truthyQ amount && truthyQ discount_amount &&
      decide (amount.getD 0 < discount_amount.getD 0))

/-- The view-level gate around `BillingForm` (`if form.is_valid():
form.save()`): the submitted monetary fields are persisted only when
`clean` passes. -/
def billingSubmit (amount discount_amount : Option ℚ) :
    Option (Option ℚ × Option ℚ) :=
  if billingClean amount discount_amount then some (amount, discount_amount)
  else none

/-- `PrescriptionForm.clean` (forms.py 545-553): raises when both dates
are supplied and `end_date <= start_date`.  Returns `true` when
validation passes.  (A Python `date` object is always truthy, so the
guard `if start_date and end_date` is exactly "both are not `None`".) -/
def prescriptionClean (start_date end_date : Option Date) : Bool :=
  !(start_date.isSome && end_date.isSome &&
      dateLeb (end_date.getD ⟨1, 1, 1⟩) (start_date.getD ⟨1, 1, 1⟩))

/-- The view-level gate around `PrescriptionForm`: the submitted dates
are persisted only when `clean` passes. -/
def prescriptionSubmit (start_date end_date : Option Date) :
    Option (Option Date × Option Date) :=
  if prescriptionClean start_date end_date then some (start_date, end_date)
  else none

/-- The spec's wording of the age computation, stated independently of
the code: the year difference, minus one exactly when the birthday
(month, day) has not yet occurred in the current year. -/
def conventionalAge (today dob : Date) : Int :=
  if dob.month < today.month ∨ (dob.month = today.month ∧ dob.day ≤ today.day) then
    today.year - dob.year
  else
    today.year - dob.year - 1

end EMR

namespace EMR

theorem insertByName_mem (x y : Patient) (l : List Patient) :
    y ∈ insertByName x l ↔ y = x ∨ y ∈ l := by
  induction l with
  | nil => simp [insertByName]
  | cons z zs ih =>
      by_cases h : nameLeb x z = true
      · simp [insertByName, h, List.mem_cons]
      · simp only [insertByName, h, Bool.false_eq_true, if_false, List.mem_cons, ih]
        tauto

theorem sortByName_mem (y : Patient) (l : List Patient) :
    y ∈ sortByName l ↔ y ∈ l := by
  induction l with
  | nil => simp [sortByName]
  | cons z zs ih => simp [sortByName, insertByName_mem, ih]

theorem paginatePage_subset (ps : List Patient) (sz k : Nat) :
    paginatePage ps sz k ⊆ ps :=
  (List.take_subset _ _).trans (List.drop_subset _ _)

theorem applyAgeMin_subset {today : Date} {am : Option Nat}
    {ps res : List Patient} (h : applyAgeMin today am ps = some res) :
    res ⊆ ps := by
  unfold applyAgeMin at h
  split at h
  · cases hrep : today.replaceYear (today.year - ((am.getD 0 : Nat) : Int)) with
    | none => rw [hrep] at h; cases h
    | some mb =>
        rw [hrep] at h
        cases h
        exact List.filter_subset' _
  · cases h
    exact List.Subset.refl _

theorem applyAgeMax_subset {today : Date} {ax : Option Nat}
    {ps res : List Patient} (h : applyAgeMax today ax ps = some res) :
    res ⊆ ps := by
  unfold applyAgeMax at h
  split at h
  · cases hrep : today.replaceYear (today.year - ((ax.getD 0 : Nat) : Int) - 1) with
    | none => rw [hrep] at h; cases h
    | some mb =>
        rw [hrep] at h
        cases h
        exact List.filter_subset' _
  · cases h
    exact List.Subset.refl _

theorem ageFilterStep_subset {today : Date} {am ax : Option Nat}
    {ps res : List Patient} (h : ageFilterStep today am ax ps = some res) :
    res ⊆ ps := by
  unfold ageFilterStep at h
  split at h
  · rcases Option.bind_eq_some.mp h with ⟨mid, h1, h2⟩
    exact (applyAgeMax_subset h2).trans (applyAgeMin_subset h1)
  · cases h
    exact List.Subset.refl _

theorem ite_filter_subset (c : Bool) (pred : Patient → Bool)
    (ps : List Patient) :
    (if c then ps.filter pred else ps) ⊆ ps := by
  split
  · exact List.filter_subset' _
  · exact List.Subset.refl _

theorem applySearchFilters_subset {f : PatientSearchParams} {today : Date}
    {ps res : List Patient} (h : applySearchFilters f today ps = some res) :
    res ⊆ ps := by
  unfold applySearchFilters at h
  refine (ageFilterStep_subset h).trans ?_
  refine (ite_filter_subset _ _ _).trans ?_
  refine (ite_filter_subset _ _ _).trans ?_
  exact ite_filter_subset _ _ _

theorem patient_list_owner {db : List Patient} {user : AuthUser}
    {form_valid : Bool} {f : PatientSearchParams} {today : Date}
    {res : List Patient} (hpriv : is_staff_or_doctor user = false)
    (h : patient_list db user form_valid f today = some res) :
    ∀ p ∈ res, p.user = user.id := by
  unfold is_staff_or_doctor at hpriv
  unfold patient_list at h
  rw [hpriv] at h
  simp only [Bool.not_false, if_true] at h
  intro p hp
  have hsub : res ⊆ (db.filter fun p => p.is_active).filter
      (fun p => p.user == user.id) := by
    split at h
    · exact applySearchFilters_subset h
    · cases h
      exact List.Subset.refl _
  have hmem := List.mem_filter.mp (hsub hp)
  simpa using hmem.2

theorem bmiOf_eq_of_pos {h w : ℚ} (hh : 0 < h) (hw : 0 < w) :
    bmiOf (some h) (some w) = some (pyRound2 (w / (h / 100) ^ 2)) := by
  have h1 : h ≠ 0 := ne_of_gt hh
  have h2 : w ≠ 0 := ne_of_gt hw
  simp [bmiOf, truthyQ, h1, h2]

theorem bmiOf_none_left (w : Option ℚ) : bmiOf none w = none := by
  simp [bmiOf, truthyQ]

theorem bmiOf_none_right (h : Option ℚ) : bmiOf h none = none := by
  cases h <;> simp [bmiOf, truthyQ]

theorem pyRound2_bmi_example :
    pyRound2 ((70 : ℚ) / ((170 : ℚ) / 100) ^ 2) = 2422 / 100 := by
  have h0 : ((70 : ℚ) / ((170 : ℚ) / 100) ^ 2) = 7000 / 289 := by norm_num
  have h1 : (7000 / 289 : ℚ) * 100 = 700000 / 289 := by norm_num
  have h2 : ratFloor (700000 / 289 : ℚ) = 2422 := by
    rw [ratFloor, Int.floor_eq_iff]
    norm_num
  unfold pyRound2 roundHalfEven
  rw [h0, h1, h2, if_pos (by norm_num)]
  norm_num

/-- C1: for every request by a non-privileged actor (not staff, not an
active doctor) to the patient list view or the patient search API, every
patient in the returned result set — any page, any search query, blood
type, gender or age filter — is owned by that actor. -/
theorem C1_nonprivileged_sees_only_owned (db : List Patient)
    (user : AuthUser) (form_valid : Bool) (f : PatientSearchParams)
    (today : Date) (pageNum : Nat) (q : String) (res : List Patient)
    (hpriv : is_staff_or_doctor user = false) :
    (patient_list_page db user form_valid f today pageNum = some res →
      ∀ p ∈ res, p.user = user.id) ∧
    (∀ p ∈ patient_search_api db user q, p.user = user.id) := by
  constructor
  · intro h p hp
    unfold patient_list_page at h
    rcases Option.map_eq_some'.mp h with ⟨full, hfull, hpage⟩
    have hp2 : p ∈ sortByName full := paginatePage_subset _ _ _ (hpage ▸ hp)
    have hp3 : p ∈ full := (sortByName_mem p full).mp hp2
    exact patient_list_owner hpriv hfull p hp3
  · intro p hp
    have hb : (user.is_staff || is_doctor user) = false := hpriv
    unfold patient_search_api at hp
    split at hp
    · simp at hp
    · rw [hb] at hp
      simp only [Bool.not_false, if_true] at hp
      have hp2 := List.take_subset _ _ hp
      have hp3 := (List.mem_filter.mp hp2).1
      have hp4 := (List.mem_filter.mp hp3).2
      simpa using hp4

/-- C1 witness: a non-privileged user (id 1, not staff, no doctor
profile) querying a database holding their own patient and somebody
else's sees only records owned by user 1, on the list page and through
the search API. -/
theorem C1_nonprivileged_sees_only_owned_witness :
    is_staff_or_doctor ⟨1, false, none⟩ = false ∧
    ((patient_list_page
        [⟨"pid-a", "John", "Alpha", "a@x", "111", ⟨1990, 1, 1⟩, "M", "A+",
           none, none, 1, true⟩,
         ⟨"pid-b", "Jane", "Beta", "b@x", "222", ⟨1985, 2, 2⟩, "F", "O+",
           none, none, 2, true⟩]
        ⟨1, false, none⟩ true ⟨none, none, none, none, none⟩ ⟨2024, 1, 1⟩ 1 =
      some [⟨"pid-a", "John", "Alpha", "a@x", "111", ⟨1990, 1, 1⟩, "M", "A+",
              none, none, 1, true⟩] →
      ∀ p ∈ [(⟨"pid-a", "John", "Alpha", "a@x", "111", ⟨1990, 1, 1⟩, "M", "A+",
               none, none, 1, true⟩ : Patient)], p.user = 1) ∧
     (∀ p ∈ patient_search_api
        [⟨"pid-a", "John", "Alpha", "a@x", "111", ⟨1990, 1, 1⟩, "M", "A+",
           none, none, 1, true⟩,
         ⟨"pid-b", "Jane", "Beta", "b@x", "222", ⟨1985, 2, 2⟩, "F", "O+",
           none, none, 2, true⟩]
        ⟨1, false, none⟩ "jo", p.user = 1)) :=
  ⟨by decide,
   C1_nonprivileged_sees_only_owned
     [⟨"pid-a", "John", "Alpha", "a@x", "111", ⟨1990, 1, 1⟩, "M", "A+",
        none, none, 1, true⟩,
      ⟨"pid-b", "Jane", "Beta", "b@x", "222", ⟨1985, 2, 2⟩, "F", "O+",
        none, none, 2, true⟩]
     ⟨1, false, none⟩ true ⟨none, none, none, none, none⟩ ⟨2024, 1, 1⟩ 1 "jo"
     [⟨"pid-a", "John", "Alpha", "a@x", "111", ⟨1990, 1, 1⟩, "M", "A+",
        none, none, 1, true⟩]
     (by decide)⟩

/-- C2 counterexample: a billing saved with an explicitly supplied total
of 0 does not keep that total — `Billing.save` overwrites it with
`amount + tax - discount` because Python `not Decimal(0)` is true.  With
amount 100, tax 10, discount 5 the supplied total 0 becomes 105. -/
theorem C2_counterexample :
    (Billing.save ⟨100, 10, 5, some 0⟩).total_amount ≠ some 0 ∧
    (Billing.save ⟨100, 10, 5, some 0⟩).total_amount = some 105 := by
  have hs : Billing.save ⟨100, 10, 5, some 0⟩ = ⟨100, 10, 5, some 105⟩ := by
    norm_num [Billing.save, truthyQ]
  rw [hs]
  refine ⟨?_, rfl⟩
  simp only [ne_eq, Option.some.injEq]
  norm_num

/-- C2 amended: saving a `Billing` whose total is absent *or zero* sets
`total_amount` to `amount + tax_amount - discount_amount`; a nonzero
supplied total is left unchanged. -/
theorem C2_total_amount_on_save (b : Billing) :
    ((b.total_amount = none ∨ b.total_amount = some 0) →
      (Billing.save b).total_amount =
        some (b.amount + b.tax_amount - b.discount_amount)) ∧
    (∀ t : ℚ, b.total_amount = some t → t ≠ 0 →
      (Billing.save b).total_amount = some t) := by
  constructor
  · rintro (h | h) <;> simp [Billing.save, truthyQ, h]
  · intro t ht hne
    simp [Billing.save, truthyQ, ht, hne]

/-- C2 witness: amount 100, tax 10, discount 5 with no supplied total
gives total 105; a supplied nonzero total 77 is kept. -/
theorem C2_total_amount_on_save_witness :
    (Billing.save ⟨100, 10, 5, none⟩).total_amount = some 105 ∧
    (Billing.save ⟨100, 10, 5, some 77⟩).total_amount = some 77 := by
  constructor
  · have h := (C2_total_amount_on_save ⟨100, 10, 5, none⟩).1 (Or.inl rfl)
    rw [h]
    norm_num
  · exact (C2_total_amount_on_save ⟨100, 10, 5, some 77⟩).2 77 rfl (by norm_num)

/-- C3: the computed age equals the conventional
year-difference-minus-one-if-birthday-not-yet-occurred formula for every
reference date, and matches the spec's examples (dob 2000-06-15: age 23
on 2024-06-14, age 24 on 2024-06-15). -/
theorem C3_age_is_conventional :
    (∀ today dob : Date, patientAge today dob = conventionalAge today dob) ∧
    patientAge ⟨2024, 6, 14⟩ ⟨2000, 6, 15⟩ = 23 ∧
    patientAge ⟨2024, 6, 15⟩ ⟨2000, 6, 15⟩ = 24 := by
  refine ⟨fun t d => ?_, by decide, by decide⟩
  rcases t with ⟨ty, tm, td⟩
  rcases d with ⟨dy, dm, dd⟩
  simp only [patientAge, conventionalAge, mdLt, Bool.or_eq_true,
    Bool.and_eq_true, decide_eq_true_eq]
  split_ifs <;> omega

/-- C4: on any `Patient` or `Checkup` record with positive height and
weight present, the BMI property is weight / (height/100)² rounded to two
decimals, computed from that record's own fields; when either field is
absent the BMI is `None`. -/
theorem C4_bmi_formula (p : Patient) (c : Checkup) (h w : ℚ) :
    (p.height = some h → p.weight = some w → 0 < h → 0 < w →
      Patient.bmi p = some (pyRound2 (w / (h / 100) ^ 2))) ∧
    (c.height = some h → c.weight = some w → 0 < h → 0 < w →
      Checkup.bmi c = some (pyRound2 (w / (h / 100) ^ 2))) ∧
    ((p.height = none ∨ p.weight = none) → Patient.bmi p = none) ∧
    ((c.height = none ∨ c.weight = none) → Checkup.bmi c = none) := by
  refine ⟨?_, ?_, ?_, ?_⟩
  · intro hh hw h0 w0
    rw [Patient.bmi, hh, hw]
    exact bmiOf_eq_of_pos h0 w0
  · intro hh hw h0 w0
    rw [Checkup.bmi, hh, hw]
    exact bmiOf_eq_of_pos h0 w0
  · rintro (hh | hw)
    · rw [Patient.bmi, hh]
      exact bmiOf_none_left _
    · rw [Patient.bmi, hw]
      exact bmiOf_none_right _
  · rintro (hh | hw)
    · rw [Checkup.bmi, hh]
      exact bmiOf_none_left _
    · rw [Checkup.bmi, hw]
      exact bmiOf_none_right _

/-- C4 witness: height 170 cm and weight 70 kg give BMI 24.22 on both a
patient and a checkup record; a patient with no height has no BMI. -/
theorem C4_bmi_formula_witness :
    Patient.bmi ⟨"", "", "", "", "", ⟨2000, 1, 1⟩, "", "", some 170,
      some 70, 0, true⟩ = some (2422 / 100) ∧
    Checkup.bmi ⟨none, none, some 170, some 70⟩ = some (2422 / 100) ∧
    Patient.bmi ⟨"", "", "", "", "", ⟨2000, 1, 1⟩, "", "", none, some 70,
      0, true⟩ = none := by
  have t := C4_bmi_formula
    ⟨"", "", "", "", "", ⟨2000, 1, 1⟩, "", "", some 170, some 70, 0, true⟩
    ⟨none, none, some 170, some 70⟩ 170 70
  refine ⟨?_, ?_, ?_⟩
  · rw [t.1 rfl rfl (by norm_num) (by norm_num), pyRound2_bmi_example]
  · rw [t.2.1 rfl rfl (by norm_num) (by norm_num), pyRound2_bmi_example]
  · exact (C4_bmi_formula
      ⟨"", "", "", "", "", ⟨2000, 1, 1⟩, "", "", none, some 70, 0, true⟩
      ⟨none, none, some 170, some 70⟩ 170 70).2.2.1 (Or.inl rfl)

/-- C5: a checkup's blood-pressure display is "<systolic>/<diastolic>"
whenever both readings are present (in their clinical validator ranges,
systolic ≥ 50, diastolic ≥ 30), and `None` when either is absent. -/
theorem C5_blood_pressure_display (c : Checkup) :
    (∀ s d : Nat, c.blood_pressure_systolic = some s →
      c.blood_pressure_diastolic = some d → 50 ≤ s → 30 ≤ d →
      Checkup.blood_pressure c = some (toString s ++ "/" ++ toString d)) ∧
    ((c.blood_pressure_systolic = none ∨ c.blood_pressure_diastolic = none) →
      Checkup.blood_pressure c = none) := by
  constructor
  · intro s d hs hd h50 h30
    have hs0 : s ≠ 0 := by omega
    have hd0 : d ≠ 0 := by omega
    simp [Checkup.blood_pressure, truthyNat, hs, hd, hs0, hd0]
  · rintro (h | h) <;> simp [Checkup.blood_pressure, truthyNat, h]

/-- C5 witness: systolic 120 and diastolic 80 display as "120/80"; a
checkup without a diastolic reading displays nothing. -/
theorem C5_blood_pressure_display_witness :
    Checkup.blood_pressure ⟨some 120, some 80, none, none⟩ = some "120/80" ∧
    Checkup.blood_pressure ⟨some 120, none, none, none⟩ = none := by
  constructor
  · have h := (C5_blood_pressure_display ⟨some 120, some 80, none, none⟩).1
      120 80 rfl rfl (by norm_num) (by norm_num)
    rw [h]
    rfl
  · exact (C5_blood_pressure_display ⟨some 120, none, none, none⟩).2 (Or.inr rfl)

/-- C6 counterexample: a submission with amount 0 and discount 50 has
the discount strictly greater than the amount, yet `BillingForm.clean`
accepts it and the data is persisted — the guard `if amount and
discount_amount and ...` short-circuits on the falsy amount 0. -/
theorem C6_counterexample :
    (0 : ℚ) < 50 ∧ billingClean (some 0) (some 50) = true ∧
    billingSubmit (some 0) (some 50) = some (some 0, some 50) := by
  have hc : billingClean (some 0) (some 50) = true := by
    norm_num [billingClean, truthyQ]
  exact ⟨by norm_num, hc, by simp [billingSubmit, hc]⟩

/-- C6 amended: a billing submission fails validation exactly when both
the amount and the discount are supplied and nonzero and the discount is
strictly greater than the amount; on failure nothing is persisted, and
otherwise the submitted values are persisted. -/
theorem C6_discount_gt_amount_rejected (a d : Option ℚ) :
    (billingClean a d = false ↔
      ∃ av dv : ℚ, a = some av ∧ d = some dv ∧ av ≠ 0 ∧ dv ≠ 0 ∧ av < dv) ∧
    (billingClean a d = false → billingSubmit a d = none) ∧
    (billingClean a d = true → billingSubmit a d = some (a, d)) := by
  refine ⟨?_, ?_, ?_⟩
  · cases a with
    | none => simp [billingClean, truthyQ]
    | some av =>
        cases d with
        | none => simp [billingClean, truthyQ]
        | some dv =>
            simp only [billingClean, truthyQ, Option.getD_some,
              Bool.not_eq_false', Bool.and_eq_true, decide_eq_true_eq,
              Option.some.injEq]
            constructor
            · rintro ⟨⟨h1, h2⟩, h3⟩
              exact ⟨av, dv, rfl, rfl, h1, h2, h3⟩
            · rintro ⟨av2, dv2, ha, hd, h1, h2, h3⟩
              subst ha
              subst hd
              exact ⟨⟨h1, h2⟩, h3⟩
  · intro h
    simp [billingSubmit, h]
  · intro h
    simp [billingSubmit, h]

/-- C6 witness: the spec's example amount 100, discount 150 is rejected
and nothing is persisted. -/
theorem C6_discount_gt_amount_rejected_witness :
    billingClean (some 100) (some 150) = false ∧
    billingSubmit (some 100) (some 150) = none := by
  have t := C6_discount_gt_amount_rejected (some 100) (some 150)
  have hf : billingClean (some 100) (some 150) = false :=
    t.1.mpr ⟨100, 150, rfl, rfl, by norm_num, by norm_num, by norm_num⟩
  exact ⟨hf, t.2.1 hf⟩

/-- C7: a prescription submission that supplies both dates with
end_date ≤ start_date fails validation and nothing is persisted. -/
theorem C7_end_date_not_after_start_rejected (s e : Date)
    (hle : dateLeb e s = true) :
    prescriptionClean (some s) (some e) = false ∧
    prescriptionSubmit (some s) (some e) = none := by
  have hc : prescriptionClean (some s) (some e) = false := by
    simp [prescriptionClean, hle]
  exact ⟨hc, by simp [prescriptionSubmit, hc]⟩

/-- C7 witness: the spec's example start 2024-01-10, end 2024-01-10
(end ≤ start) is rejected. -/
theorem C7_end_date_not_after_start_rejected_witness :
    prescriptionClean (some ⟨2024, 1, 10⟩) (some ⟨2024, 1, 10⟩) = false ∧
    prescriptionSubmit (some ⟨2024, 1, 10⟩) (some ⟨2024, 1, 10⟩) = none :=
  C7_end_date_not_after_start_rejected ⟨2024, 1, 10⟩ ⟨2024, 1, 10⟩ (by decide)

/-- C8: for an authorized actor (staff, or the active doctor the
appointment belongs to), posting one of the six enum statuses sets it
unconditionally — no transition graph — posting anything else fails and
leaves the appointment unchanged, so the status always stays inside the
enum. -/
theorem C8_status_stays_in_enum (user : AuthUser) (appt : Appointment)
    (ns : Option String)
    (hauth : user.is_staff = true ∨
      ∃ dp : DoctorProfile, user.doctor_profile = some dp ∧
        dp.is_active = true ∧ dp.id = appt.doctor) :
    (∀ s : String, ns = some s → s ∈ statusKeys →
      appointment_update_status user appt ns =
        ({ appt with status := s }, true)) ∧
    (∀ s : String, ns = some s → s ∉ statusKeys →
      appointment_update_status user appt ns = (appt, false)) ∧
    (ns = none → appointment_update_status user appt ns = (appt, false)) ∧
    (appt.status ∈ statusKeys →
      ((appointment_update_status user appt ns).1).status ∈ statusKeys) := by
  have hg : (user.is_staff || is_doctor user ||
      (is_doctor user &&
        (match user.doctor_profile with
         | some d => appt.doctor == d.id
         | none => false))) = true := by
    rcases hauth with h | ⟨dp, hdp, hact, hid⟩
    · simp [h]
    · simp [is_doctor, hdp, hact]
  refine ⟨?_, ?_, ?_, ?_⟩
  · intro s hns hmem
    simp [appointment_update_status, hg, hns, hmem]
  · intro s hns hmem
    simp [appointment_update_status, hg, hns, hmem]
  · intro hns
    simp [appointment_update_status, hg, hns]
  · intro hst
    cases ns with
    | none => simpa [appointment_update_status, hg] using hst
    | some s =>
        by_cases hmem : s ∈ statusKeys
        · simp [appointment_update_status, hg, hmem]
        · simp only [appointment_update_status, hg, Bool.not_true,
            Bool.false_eq_true, if_false]
          simpa [hmem] using hst

/-- C8 witness: a staff member moves a scheduled appointment straight to
"Completed"; a request with an out-of-enum value is refused and the
status stays "Scheduled". -/
theorem C8_status_stays_in_enum_witness :
    appointment_update_status ⟨1, true, none⟩ ⟨5, "Scheduled"⟩
      (some "Completed") = (⟨5, "Completed"⟩, true) ∧
    appointment_update_status ⟨1, true, none⟩ ⟨5, "Scheduled"⟩
      (some "Bogus") = (⟨5, "Scheduled"⟩, false) := by
  have t := C8_status_stays_in_enum ⟨1, true, none⟩ ⟨5, "Scheduled"⟩
    (some "Completed") (Or.inl rfl)
  have u := C8_status_stays_in_enum ⟨1, true, none⟩ ⟨5, "Scheduled"⟩
    (some "Bogus") (Or.inl rfl)
  exact ⟨t.1 "Completed" rfl (by decide), u.2.1 "Bogus" rfl (by decide)⟩

/-- C10: `mark_as_read` on an unread notification sets the read flag and
timestamp and saves; on an already-read notification it changes nothing
and does not save, so a second call after any first call is a no-op. -/
theorem C10_mark_as_read_idempotent (n : Notification) (t1 t2 : Int) :
    (n.is_read = false →
      n.mark_as_read t1 = (⟨true, some t1⟩, true)) ∧
    (n.is_read = true → n.mark_as_read t1 = (n, false)) ∧
    ((n.mark_as_read t1).1.mark_as_read t2 = ((n.mark_as_read t1).1, false)) := by
  refine ⟨?_, ?_, ?_⟩
  · intro h
    simp [Notification.mark_as_read, h]
  · intro h
    simp [Notification.mark_as_read, h]
  · rcases hn : n.is_read <;> simp [Notification.mark_as_read, hn]

/-- C10 witness: marking an unread notification at time 5 reads it and
saves; marking it again at time 9 changes nothing and does not save. -/
theorem C10_mark_as_read_idempotent_witness :
    Notification.mark_as_read ⟨false, none⟩ 5 = (⟨true, some 5⟩, true) ∧
    Notification.mark_as_read ⟨true, some 5⟩ 9 = (⟨true, some 5⟩, false) :=
  ⟨(C10_mark_as_read_idempotent ⟨false, none⟩ 5 9).1 rfl,
   (C10_mark_as_read_idempotent ⟨true, some 5⟩ 9 0).2.1 rfl⟩

theorem dateLeb_maxBirth_iff (t dob : Date) (m : Nat) :
    dateLeb dob ⟨t.year - (m : Int), t.month, t.day⟩ = true ↔
      (m : Int) ≤ patientAge t dob := by
  rcases t with ⟨ty, tm, td⟩
  rcases dob with ⟨dy, dm, dd⟩
  simp only [dateLeb, patientAge, mdLt, Bool.or_eq_true, Bool.and_eq_true,
    decide_eq_true_eq]
  split_ifs <;> omega

theorem dateLeb_minBirth_iff (t dob : Date) (x : Nat) :
    dateLeb ⟨t.year - (x : Int) - 1, t.month, t.day⟩ dob = true ↔
      (patientAge t dob ≤ (x : Int) ∨
        (patientAge t dob = (x : Int) + 1 ∧
          dob.month = t.month ∧ dob.day = t.day)) := by
  rcases t with ⟨ty, tm, td⟩
  rcases dob with ⟨dy, dm, dd⟩
  simp only [dateLeb, patientAge, mdLt, Bool.or_eq_true, Bool.and_eq_true,
    decide_eq_true_eq]
  split_ifs <;> omega

theorem applyAgeMin_mem {today : Date} {am : Option Nat}
    {ps mid : List Patient} (h : applyAgeMin today am ps = some mid)
    (p : Patient) :
    p ∈ mid ↔ p ∈ ps ∧ (truthyNat am = false ∨
      ((am.getD 0 : Nat) : Int) ≤ patientAge today p.date_of_birth) := by
  unfold applyAgeMin at h
  split at h
  case isTrue ht =>
    cases hrep : today.replaceYear (today.year - ((am.getD 0 : Nat) : Int)) with
    | none => rw [hrep] at h; cases h
    | some mb =>
        rw [hrep] at h
        cases h
        unfold Date.replaceYear at hrep
        dsimp only at hrep
        split at hrep
        · cases hrep
          rw [List.mem_filter, dateLeb_maxBirth_iff]
          simp [ht]
        · cases hrep
  case isFalse hf =>
    cases h
    simp [Bool.not_eq_true] at hf
    simp [hf]

theorem applyAgeMax_mem {today : Date} {ax : Option Nat}
    {ps mid : List Patient} (h : applyAgeMax today ax ps = some mid)
    (p : Patient) :
    p ∈ mid ↔ p ∈ ps ∧ (truthyNat ax = false ∨
      patientAge today p.date_of_birth ≤ ((ax.getD 0 : Nat) : Int) ∨
      (patientAge today p.date_of_birth = ((ax.getD 0 : Nat) : Int) + 1 ∧
        p.date_of_birth.month = today.month ∧
        p.date_of_birth.day = today.day)) := by
  unfold applyAgeMax at h
  split at h
  case isTrue ht =>
    cases hrep : today.replaceYear (today.year - ((ax.getD 0 : Nat) : Int) - 1) with
    | none => rw [hrep] at h; cases h
    | some mb =>
        rw [hrep] at h
        cases h
        unfold Date.replaceYear at hrep
        dsimp only at hrep
        split at hrep
        · cases hrep
          rw [List.mem_filter, dateLeb_minBirth_iff]
          simp [ht]
        · cases hrep
  case isFalse hf =>
    cases h
    simp [Bool.not_eq_true] at hf
    simp [hf]

/-- C9 counterexample: with the current date 2024-06-15 and the filter
age_max = 30, a patient born 1993-06-15 — whose age is 31 — is included
in the filtered results, because the computed lower birth-date cutoff
`today.replace(year=today.year-age_max-1)` is compared with `>=`, which
admits a patient whose 31st birthday falls exactly on the current date.
This refutes "included iff age lies within the bounds". -/
theorem C9_counterexample :
    ¬ (∀ p ∈ (ageFilterStep ⟨2024, 6, 15⟩ none (some 30)
        [⟨"", "", "", "", "", ⟨1993, 6, 15⟩, "", "", none, none, 0, true⟩]).getD [],
        patientAge ⟨2024, 6, 15⟩ p.date_of_birth ≤ 30) := by
  decide

/-- C9 amended: when the age-filter block runs without raising, a
patient is in the filtered output iff it was in the input and, for each
*nonzero* supplied bound: the age is at least `age_min`; and the age is
at most `age_max` — except that a patient whose age is exactly
`age_max + 1` with the birthday falling on the current date is also
admitted.  A bound equal to 0 is ignored entirely. -/
theorem C9_age_filter_characterization (today : Date) (am ax : Option Nat)
    (ps res : List Patient) (hres : ageFilterStep today am ax ps = some res)
    (p : Patient) :
    p ∈ res ↔ p ∈ ps ∧
      (truthyNat am = false ∨
        ((am.getD 0 : Nat) : Int) ≤ patientAge today p.date_of_birth) ∧
      (truthyNat ax = false ∨
        patientAge today p.date_of_birth ≤ ((ax.getD 0 : Nat) : Int) ∨
        (patientAge today p.date_of_birth = ((ax.getD 0 : Nat) : Int) + 1 ∧
          p.date_of_birth.month = today.month ∧
          p.date_of_birth.day = today.day)) := by
  unfold ageFilterStep at hres
  split at hres
  case isTrue ht =>
    rcases Option.bind_eq_some.mp hres with ⟨mid, h1, h2⟩
    rw [applyAgeMax_mem h2 p, applyAgeMin_mem h1 p]
    tauto
  case isFalse hf =>
    cases hres
    have hb : truthyNat am = false ∧ truthyNat ax = false := by
      constructor <;> [skip; skip] <;>
        · revert hf
          cases truthyNat am <;> cases truthyNat ax <;> simp
    simp [hb.1, hb.2]

/-- C9 witness: current date 2024-06-15, bounds age_min 18 and age_max
65; a patient born 2000-03-10 (age 24) passes the filter, and the
characterization holds for them. -/
theorem C9_age_filter_characterization_witness :
    (⟨"", "", "", "", "", ⟨2000, 3, 10⟩, "", "", none, none, 0, true⟩ ∈
        ([⟨"", "", "", "", "", ⟨2000, 3, 10⟩, "", "", none, none, 0, true⟩] :
          List Patient) ↔
      (⟨"", "", "", "", "", ⟨2000, 3, 10⟩, "", "", none, none, 0, true⟩ ∈
        ([⟨"", "", "", "", "", ⟨2000, 3, 10⟩, "", "", none, none, 0, true⟩] :
          List Patient)) ∧
      (truthyNat (some 18) = false ∨
        (((some 18).getD 0 : Nat) : Int) ≤
          patientAge ⟨2024, 6, 15⟩ ⟨2000, 3, 10⟩) ∧
      (truthyNat (some 65) = false ∨
        patientAge ⟨2024, 6, 15⟩ ⟨2000, 3, 10⟩ ≤ (((some 65).getD 0 : Nat) : Int) ∨
        (patientAge ⟨2024, 6, 15⟩ ⟨2000, 3, 10⟩ = (((some 65).getD 0 : Nat) : Int) + 1 ∧
          (3 : Nat) = 6 ∧ (10 : Nat) = 15))) :=
  C9_age_filter_characterization ⟨2024, 6, 15⟩ (some 18) (some 65)
    [⟨"", "", "", "", "", ⟨2000, 3, 10⟩, "", "", none, none, 0, true⟩]
    [⟨"", "", "", "", "", ⟨2000, 3, 10⟩, "", "", none, none, 0, true⟩]
    (by decide)
    ⟨"", "", "", "", "", ⟨2000, 3, 10⟩, "", "", none, none, 0, true⟩

end EMR
